import Mathlib

/-!
Shallow embedding of `SceneManager.cpp` (SNHU CS-330 still-life scene renderer).

The embedding follows the source file function by function:

* `TEXTURE_ID` models the entries of the fixed `m_textureIDs` array; the occupied
  prefix (`m_textureIDs[0 .. m_loadedTextures)`) is modelled as a `List TEXTURE_ID`
  in registration order, so `m_loadedTextures` is the list length.
* `OBJECT_MATERIAL` models the material struct; `m_objectMaterials` is a list.
* OpenGL texture-object bookkeeping (an external collaborator) is modelled by
  `GLState`: `glGenTexture` hands out a fresh texture name and records it live,
  `glDeleteTexture` removes a name and counts the delete call.  `SceneManager.cpp`
  itself never issues a delete.
* Floating-point scalars that the source only stores and compares are modelled as
  `ℚ`; the trigonometric model-matrix arithmetic of `SetTransformations` is
  modelled over `ℝ`.
* The shader program (external collaborator) is modelled as a record of the
  uniform values this file writes (`ShaderState`); `m_pShaderManager` is an
  `Option ShaderState`, `none` standing for a null pointer.  Writes through the
  pointer are modelled with `Option.map`.
-/

/-- Entry of the `m_textureIDs` array: a GL texture name plus its tag. -/
structure TEXTURE_ID where
  ID : Nat
  tag : String
deriving DecidableEq

/-- The material record of `SceneManager.h` (ambient/diffuse/specular colors,
ambient strength, shininess, tag). -/
structure OBJECT_MATERIAL where
  ambientColor : ℚ × ℚ × ℚ
  ambientStrength : ℚ
  diffuseColor : ℚ × ℚ × ℚ
  specularColor : ℚ × ℚ × ℚ
  shininess : ℚ
  tag : String
deriving DecidableEq

/-- State of the external GL texture-object allocator: the next fresh texture
name, the names currently allocated and not yet deleted, and how many delete
calls have been issued. -/
structure GLState where
  nextTextureName : Nat
  liveTextures : List Nat
  deletesIssued : Nat
deriving DecidableEq

/-- Models `glGenTextures(1, &id)`: allocates a fresh texture name. -/
def glGenTexture (gl : GLState) : Nat × GLState :=
  (gl.nextTextureName,
   { nextTextureName := gl.nextTextureName + 1
     liveTextures := gl.liveTextures ++ [gl.nextTextureName]
     deletesIssued := gl.deletesIssued })

/-- Models `glDeleteTextures(1, &id)`: releases a texture name.  The source file
never calls this, so `deletesIssued` stays `0` throughout `SceneManager.cpp`. -/
def glDeleteTexture (name : Nat) (gl : GLState) : GLState :=
  { nextTextureName := gl.nextTextureName
    liveTextures := gl.liveTextures.filter (fun n => n ≠ name)
    deletesIssued := gl.deletesIssued + 1 }

/-- Result of `stbi_load`: `none` on decode failure, otherwise the image header
data that `CreateGLTexture` inspects. -/
structure RawImage where
  width : Nat
  height : Nat
  colorChannels : Nat
deriving DecidableEq

/-- `SceneManager::CreateGLTexture` (SceneManager.cpp lines 60-124).  The decode
outcome is passed in as `image`.  On success a texture object is generated and,
when the channel count is 3 or 4, the pixel data is uploaded and
`{ID, tag}` is appended at `m_textureIDs[m_loadedTextures]`; any other channel
count returns `false` before the append (the generated texture object is
leaked, exactly as in the source).  Returns the flag, the new registry prefix
and the new GL state. -/
def CreateGLTexture (image : Option RawImage) (tag : String)
    (m_textureIDs : List TEXTURE_ID) (gl : GLState) :
    Bool × List TEXTURE_ID × GLState :=
  match image with
  | some img =>
      let r := glGenTexture gl
      if img.colorChannels = 3 then
        (true, m_textureIDs ++ [⟨r.1, tag⟩], r.2)
      else if img.colorChannels = 4 then
        (true, m_textureIDs ++ [⟨r.1, tag⟩], r.2)
      else
        (false, m_textureIDs, r.2)
  | none => (false, m_textureIDs, gl)

/-- `SceneManager::BindGLTextures` (lines 132-140): texture `i` is bound to
texture unit `i`; the result lists the (slot, texture name) bindings issued. -/
def BindGLTextures (m_textureIDs : List TEXTURE_ID) : List (Nat × Nat) :=
  m_textureIDs.enum.map (fun p => (p.1, p.2.ID))

/-- `SceneManager::DestroyGLTextures` (lines 148-154).  The loop body is
`glGenTextures(1, &m_textureIDs[i].ID)`: it overwrites each stored handle with
a freshly generated texture name and issues no delete call. -/
def DestroyGLTextures (m_textureIDs : List TEXTURE_ID) (gl : GLState) :
    List TEXTURE_ID × GLState :=
  match m_textureIDs with
  | [] => ([], gl)
  | t :: rest =>
      let r := glGenTexture gl
      let rest' := DestroyGLTextures rest r.2
      ({ t with ID := r.1 } :: rest'.1, rest'.2)

/-- The scan loop of `SceneManager::FindTextureSlot` (lines 194-203):
`while (index < m_loadedTextures && !bFound)`, recording `index` on the first
tag match.  `index` is the loop counter already advanced past the list head. -/
def FindTextureSlotLoop (texs : List TEXTURE_ID) (tag : String) (index : Nat) : Int :=
  match texs with
  | [] => -1
  | t :: rest =>
      if t.tag = tag then Int.ofNat index
      else FindTextureSlotLoop rest tag (index + 1)

/-- `SceneManager::FindTextureSlot` (lines 188-206): linear scan by tag, first
match wins, `-1` when no tag matches. -/
def FindTextureSlot (m_textureIDs : List TEXTURE_ID) (tag : String) : Int :=
  FindTextureSlotLoop m_textureIDs tag 0

/-- The scan loop of `SceneManager::FindMaterial` (lines 221-238): on the first
tag match it copies the five lighting fields (not the tag) into the reference
parameter `material` and stops; the flag is `bFound` at loop exit. -/
def FindMaterialLoop (mats : List OBJECT_MATERIAL) (tag : String)
    (material : OBJECT_MATERIAL) : Bool × OBJECT_MATERIAL :=
  match mats with
  | [] => (false, material)
  | m :: rest =>
      if m.tag = tag then
        (true,
         { material with
            ambientColor := m.ambientColor
            ambientStrength := m.ambientStrength
            diffuseColor := m.diffuseColor
            specularColor := m.specularColor
            shininess := m.shininess })
      else FindMaterialLoop rest tag material

/-- `SceneManager::FindMaterial` (lines 214-241).  An empty registry returns
`false` at once.  Otherwise the scan loop runs and the function falls through
to `return(true)` (line 240) REGARDLESS of `bFound`, so a non-empty registry
always reports `true`; on a miss the reference parameter `material` keeps
whatever value the caller passed in (an uninitialized local in the caller
`SetShaderMaterial`). -/
def FindMaterial (m_objectMaterials : List OBJECT_MATERIAL) (tag : String)
    (material : OBJECT_MATERIAL) : Bool × OBJECT_MATERIAL :=
  if m_objectMaterials.length = 0 then
    (false, material)
  else
    (true, (FindMaterialLoop m_objectMaterials tag material).2)

/-- The countertop material defined in `DefineObjectMaterials` (lines 423-430). -/
def counterMaterial : OBJECT_MATERIAL :=
  { ambientColor := (0.5, 0.5, 0.5)
    ambientStrength := 0.3
    diffuseColor := (0.2, 0.2, 0.2)
    specularColor := (0.2, 0.2, 0.2)
    shininess := 32
    tag := "counter" }

/-- The mug-body material defined in `DefineObjectMaterials` (lines 433-440). -/
def mugOuterMaterial : OBJECT_MATERIAL :=
  { ambientColor := (1, 1, 1)
    ambientStrength := 0.5
    diffuseColor := (0.3, 0.3, 0.3)
    specularColor := (0.1, 0.1, 0.1)
    shininess := 8
    tag := "mugOuter" }

/-- The mug-handle material defined in `DefineObjectMaterials` (lines 443-450). -/
def handleMaterial : OBJECT_MATERIAL :=
  { ambientColor := (1, 1, 1)
    ambientStrength := 0.5
    diffuseColor := (0.3, 0.3, 0.3)
    specularColor := (0.1, 0.1, 0.1)
    shininess := 8
    tag := "mugHandle" }

/-- The cutting-board material defined in `DefineObjectMaterials` (lines 453-459). -/
def woodMaterial : OBJECT_MATERIAL :=
  { ambientColor := (0.76, 0.60, 0.42)
    ambientStrength := 0.5
    diffuseColor := (0.65, 0.45, 0.30)
    specularColor := (0.2, 0.2, 0.2)
    shininess := 16
    tag := "wood" }

/-- `SceneManager::DefineObjectMaterials` (lines 416-463): the registry contents
after initialization, in `push_back` order. -/
def DefineObjectMaterials : List OBJECT_MATERIAL :=
  [counterMaterial, mugOuterMaterial, handleMaterial, woodMaterial]

/-! ### The GLM transform arithmetic used by `SetTransformations`

`glm::mat4` values are modelled as their mathematical 4x4 real matrices acting
on column vectors: entry `(i, j)` of the model is `m[j][i]` of the column-major
GLM value, so GLM `operator*` is ordinary matrix multiplication. -/

/-- A `glm::vec3` over the reals. -/
abbrev Vec3R := ℝ × ℝ × ℝ

/-- A `glm::mat4`, as the mathematical matrix it denotes. -/
abbrev Mat4 := Matrix (Fin 4) (Fin 4) ℝ

/-- `glm::radians`: degrees to radians. -/
noncomputable def glmRadians (degrees : ℝ) : ℝ := degrees * (Real.pi / 180)

/-- `glm::normalize` on a `vec3`: divide by the Euclidean length. -/
noncomputable def glmNormalize (v : Vec3R) : Vec3R :=
  let len := Real.sqrt (v.1 * v.1 + v.2.1 * v.2.1 + v.2.2 * v.2.2)
  (v.1 / len, v.2.1 / len, v.2.2 / len)

/-- `glm::scale(v)`: the scaling matrix with diagonal `(x, y, z, 1)`. -/
noncomputable def glmScale (v : Vec3R) : Mat4 :=
  !![v.1, 0, 0, 0;
     0, v.2.1, 0, 0;
     0, 0, v.2.2, 0;
     0, 0, 0, 1]

/-- `glm::translate(v)`: the identity with `(x, y, z, 1)` as last column. -/
noncomputable def glmTranslate (v : Vec3R) : Mat4 :=
  !![1, 0, 0, v.1;
     0, 1, 0, v.2.1;
     0, 0, 1, v.2.2;
     0, 0, 0, 1]

/-- `glm::rotate(angle, v)`: the axis-angle rotation matrix GLM builds from
`c = cos(angle)`, `s = sin(angle)`, the normalized axis and `temp = (1-c)*axis`
(transcribed entry by entry from the GLM rotate implementation; row `i`,
column `j` here is `Rotate[j][i]` there). -/
noncomputable def glmRotate (angle : ℝ) (v : Vec3R) : Mat4 :=
  let c := Real.cos angle
  let s := Real.sin angle
  let axis := glmNormalize v
  let x := axis.1
  let y := axis.2.1
  let z := axis.2.2
  !![c + (1 - c) * x * x, (1 - c) * y * x - s * z, (1 - c) * z * x + s * y, 0;
     (1 - c) * x * y + s * z, c + (1 - c) * y * y, (1 - c) * z * y - s * x, 0;
     (1 - c) * x * z - s * y, (1 - c) * y * z + s * x, c + (1 - c) * z * z, 0;
     0, 0, 0, 1]

/-- Written from the spec text for comparison: a pure rotation about the X axis
by `θ` radians. -/
noncomputable def rotationXMatrix (θ : ℝ) : Mat4 :=
  !![1, 0, 0, 0;
     0, Real.cos θ, -Real.sin θ, 0;
     0, Real.sin θ, Real.cos θ, 0;
     0, 0, 0, 1]

/-- Written from the spec text for comparison: a pure rotation about the Y axis
by `θ` radians. -/
noncomputable def rotationYMatrix (θ : ℝ) : Mat4 :=
  !![Real.cos θ, 0, Real.sin θ, 0;
     0, 1, 0, 0;
     -Real.sin θ, 0, Real.cos θ, 0;
     0, 0, 0, 1]

/-- Written from the spec text for comparison: a pure rotation about the Z axis
by `θ` radians. -/
noncomputable def rotationZMatrix (θ : ℝ) : Mat4 :=
  !![Real.cos θ, -Real.sin θ, 0, 0;
     Real.sin θ, Real.cos θ, 0, 0;
     0, 0, 1, 0;
     0, 0, 0, 1]

/-! ### Shader state and the SceneManager uniform-pushing operations -/

/-- The uniform values of the active shader program that `SceneManager.cpp`
writes: `model`, `objectColor`, `bUseTexture`, `objectTexture`, `UVscale` and
the five `material.*` fields. -/
structure ShaderState where
  model : Mat4
  objectColor : ℚ × ℚ × ℚ × ℚ
  bUseTexture : Bool
  objectTexture : Int
  UVscale : ℚ × ℚ
  materialAmbientColor : ℚ × ℚ × ℚ
  materialAmbientStrength : ℚ
  materialDiffuseColor : ℚ × ℚ × ℚ
  materialSpecularColor : ℚ × ℚ × ℚ
  materialShininess : ℚ

/-- The `SceneManager` object state: the shader-manager pointer (`none` models
`NULL`), the material registry and the texture registry. -/
structure SMState where
  m_pShaderManager : Option ShaderState
  m_objectMaterials : List OBJECT_MATERIAL
  m_textureIDs : List TEXTURE_ID

/-- `SceneManager::SetTransformations` (lines 249-279): builds
`translation * rotationX * rotationY * rotationZ * scale` from the degree
angles and, only when `m_pShaderManager` is non-null, pushes it as the `model`
uniform. -/
noncomputable def SetTransformations (scaleXYZ : Vec3R)
    (XrotationDegrees YrotationDegrees ZrotationDegrees : ℝ)
    (positionXYZ : Vec3R) (st : SMState) : SMState :=
  let scale := glmScale scaleXYZ
  let rotationX := glmRotate (glmRadians XrotationDegrees) (1, 0, 0)
  let rotationY := glmRotate (glmRadians YrotationDegrees) (0, 1, 0)
  let rotationZ := glmRotate (glmRadians ZrotationDegrees) (0, 0, 1)
  let translation := glmTranslate positionXYZ
  let modelView := translation * rotationX * rotationY * rotationZ * scale
  { st with m_pShaderManager :=
      st.m_pShaderManager.map (fun s => { s with model := modelView }) }

/-- `SceneManager::SetShaderColor` (lines 287-306): when the shader manager is
non-null, writes `bUseTexture := false` and `objectColor := (r, g, b, a)`. -/
def SetShaderColor (redColorValue greenColorValue blueColorValue alphaValue : ℚ)
    (st : SMState) : SMState :=
  { st with m_pShaderManager :=
      st.m_pShaderManager.map (fun s =>
        { s with
            bUseTexture := false
            objectColor :=
              (redColorValue, greenColorValue, blueColorValue, alphaValue) }) }

/-- `SceneManager::SetShaderTexture` (lines 314-325): when the shader manager is
non-null, writes `bUseTexture := true` and `objectTexture :=
FindTextureSlot(tag)` (the `-1` sentinel on a miss). -/
def SetShaderTexture (textureTag : String) (st : SMState) : SMState :=
  { st with m_pShaderManager :=
      st.m_pShaderManager.map (fun s =>
        { s with
            bUseTexture := true
            objectTexture := FindTextureSlot st.m_textureIDs textureTag }) }

/-- `SceneManager::SetTextureUVScale` (lines 333-339): when the shader manager
is non-null, writes `UVscale := (u, v)`. -/
def SetTextureUVScale (u v : ℚ) (st : SMState) : SMState :=
  { st with m_pShaderManager :=
      st.m_pShaderManager.map (fun s => { s with UVscale := (u, v) }) }

/-- `SceneManager::SetShaderMaterial` (lines 347-365).  The guard is
`m_objectMaterials.size() > 0` (there is no null check on the shader manager
here).  `localInit` models the value of the default-constructed local
`OBJECT_MATERIAL material;` — indeterminate in the C++ source — which
`FindMaterial` leaves untouched on a miss.  When `FindMaterial` reports `true`,
all five `material.*` uniforms are written from that record. -/
def SetShaderMaterial (materialTag : String) (localInit : OBJECT_MATERIAL)
    (st : SMState) : SMState :=
  if st.m_objectMaterials.length > 0 then
    let r := FindMaterial st.m_objectMaterials materialTag localInit
    if r.1 then
      { st with m_pShaderManager :=
          st.m_pShaderManager.map (fun s =>
            { s with
                materialAmbientColor := r.2.ambientColor
                materialAmbientStrength := r.2.ambientStrength
                materialDiffuseColor := r.2.diffuseColor
                materialSpecularColor := r.2.specularColor
                materialShininess := r.2.shininess }) }
    else st
  else st

/-! ### The call trace of `DrawGrapes`

`DrawGrapes` is a straight-line sequence of calls into the uniform-pushing
layer and the mesh library; it is embedded as the list of calls it issues, in
program order, with the literal arguments from the source. -/

/-- One call issued by a draw routine: a transform push
(`SetTransformations` arguments), a flat-color push (`SetShaderColor`
arguments), or a sphere draw call (`DrawSphereMesh`). -/
inductive RenderCall where
  | setTransform (scaleXYZ : ℚ × ℚ × ℚ)
      (XrotationDegrees YrotationDegrees ZrotationDegrees : ℚ)
      (positionXYZ : ℚ × ℚ × ℚ) : RenderCall
  | setColor (r g b a : ℚ) : RenderCall
  | drawSphere : RenderCall
deriving DecidableEq

/-- The `grapePositions[6]` array of `DrawGrapes` (lines 610-617). -/
def grapePositions : Fin 6 → ℚ × ℚ × ℚ :=
  ![(-3.0, 0.4, 7.5),
    (-2.8, 0.38, 6.9),
    (-2.6, 0.40, 7.3),
    (-2.0, 0.4, 6.4),
    (-2.6, 0.40, 7.8),
    (-2.6, 0.38, 6.4)]

/-- The `grapeSizes[6]` array of `DrawGrapes` (line 619). -/
def grapeSizes : Fin 6 → ℚ :=
  ![0.2, 0.18, 0.22, 0.19, 0.21, 0.17]

/-- `SceneManager::DrawGrapes` (lines 609-634) as its call trace: for each
`i = 0..5` it pushes the transform with uniform scale `grapeSizes[i]`, zero
rotations and position `grapePositions[i]`, pushes the purple flat color, and
draws a sphere mesh. -/
def DrawGrapes : List RenderCall :=
  ((List.finRange 6).map (fun i =>
    [RenderCall.setTransform (grapeSizes i, grapeSizes i, grapeSizes i)
        0 0 0 (grapePositions i),
     RenderCall.setColor 0.5 0.0 0.5 1.0,
     RenderCall.drawSphere])).flatten

/-- Whether a call is a sphere draw call. -/
def isSphereDraw : RenderCall → Bool
  | RenderCall.drawSphere => true
  | _ => false

/-- Whether a call is a transform push. -/
def isTransformPush : RenderCall → Bool
  | RenderCall.setTransform _ _ _ _ _ => true
  | _ => false

/-- The positions (indices into the trace) of the sphere draw calls, in order. -/
def sphereDrawIndices (trace : List RenderCall) : List Nat :=
  (List.range trace.length).filter
    (fun n => ((trace.get? n).map isSphereDraw).getD false)

/-- The nearest transform push strictly before index `n` of the trace: the
transform in effect at that point. -/
def lastTransformBefore (trace : List RenderCall) (n : Nat) : Option RenderCall :=
  (trace.take n).reverse.find? isTransformPush

/-! ### Concrete scenario data used in the theorems below -/

/-- A fresh GL allocator: texture names start at 1, nothing allocated yet. -/
def freshGL : GLState := ⟨1, [], 0⟩

/-- First registration of the end-to-end scenario: a 3-channel image tagged
"mug" into an empty registry. -/
def demoReg1 : Bool × List TEXTURE_ID × GLState :=
  CreateGLTexture (some ⟨64, 64, 3⟩) "mug" [] freshGL

/-- Second registration: a 3-channel image tagged "counter". -/
def demoReg2 : Bool × List TEXTURE_ID × GLState :=
  CreateGLTexture (some ⟨64, 64, 3⟩) "counter" demoReg1.2.1 demoReg1.2.2

/-- Third registration: a 4-channel image tagged "cuttingBoard". -/
def demoReg3 : Bool × List TEXTURE_ID × GLState :=
  CreateGLTexture (some ⟨64, 64, 4⟩) "cuttingBoard" demoReg2.2.1 demoReg2.2.2

/-- The texture registry after registering "mug", "counter", "cuttingBoard". -/
def demoTextureIDs : List TEXTURE_ID := demoReg3.2.1

/-- A second material carrying the tag "counter" with different lighting
fields, used to exercise duplicate-tag lookups. -/
def counterMaterialDup : OBJECT_MATERIAL :=
  { counterMaterial with ambientStrength := 0.9, shininess := 64 }

/-- An all-zero material record, standing for one concrete value the
default-constructed local of `SetShaderMaterial` might hold. -/
def zeroLocal : OBJECT_MATERIAL :=
  { ambientColor := (0, 0, 0)
    ambientStrength := 0
    diffuseColor := (0, 0, 0)
    specularColor := (0, 0, 0)
    shininess := 0
    tag := "" }

/-! ## Theorems -/

/-- C1: the claim states that `FindMaterial` returns `false` whenever the
registry is empty or no entry matches.  The code violates the second half:
`FindMaterial` falls through to `return(true)` after the scan loop, so on the
populated registry of `DefineObjectMaterials` a lookup of the absent tag
"granite" reports `true` while leaving the reference parameter exactly as the
caller passed it (an indeterminate local in the caller), for every such value
`g`. -/
theorem findMaterial_nonempty_miss_reports_true (g : OBJECT_MATERIAL) :
    FindMaterial DefineObjectMaterials "granite" g = (true, g) := by
  simp [FindMaterial, DefineObjectMaterials, FindMaterialLoop,
    counterMaterial, mugOuterMaterial, handleMaterial, woodMaterial]

/-- C2: the claim states that `SetShaderMaterial` on a missing tag leaves the
five `material.*` uniforms unchanged.  In the code, `FindMaterial` reports
`true` on the miss, so all five uniforms are overwritten with the fields of the
default-constructed (indeterminate) local `material` — modelled by the
arbitrary record `g` — rather than being left at their prior values. -/
theorem setShaderMaterial_miss_overwrites_uniforms (g : OBJECT_MATERIAL)
    (s : ShaderState) (texs : List TEXTURE_ID) :
    SetShaderMaterial "granite" g ⟨some s, DefineObjectMaterials, texs⟩ =
      ⟨some { s with
                materialAmbientColor := g.ambientColor
                materialAmbientStrength := g.ambientStrength
                materialDiffuseColor := g.diffuseColor
                materialSpecularColor := g.specularColor
                materialShininess := g.shininess },
        DefineObjectMaterials, texs⟩ := by
  simp [SetShaderMaterial, FindMaterial, DefineObjectMaterials, FindMaterialLoop,
    counterMaterial, mugOuterMaterial, handleMaterial, woodMaterial]

/-- C3: the claim states that `DestroyGLTextures` releases every registered
texture handle exactly once.  The loop body is `glGenTextures`, not
`glDeleteTextures`: starting from the state right after one successful
registration (entry `{ID := 1, tag := "mug"}`, handle 1 live, next name 2), the
call issues zero deletes, leaves handle 1 live, and overwrites the stored
handle with the freshly generated name 2. -/
theorem destroyGLTextures_releases_nothing :
    (CreateGLTexture (some ⟨64, 64, 3⟩) "mug" [] freshGL).2 = ([⟨1, "mug"⟩], ⟨2, [1], 0⟩) ∧
    (DestroyGLTextures [⟨1, "mug"⟩] ⟨2, [1], 0⟩).2.deletesIssued = 0 ∧
    1 ∈ (DestroyGLTextures [⟨1, "mug"⟩] ⟨2, [1], 0⟩).2.liveTextures ∧
    (DestroyGLTextures [⟨1, "mug"⟩] ⟨2, [1], 0⟩).1 = [⟨2, "mug"⟩] := by
  decide

/-- C4: for every color and every prior shader state — including one in which
`SetShaderTexture` has just enabled texturing — `SetShaderColor` writes
`bUseTexture := false` and `objectColor := (r, g, b, a)`; the use-texture flag
is never left on after a flat-color push. -/
theorem setShaderColor_disables_texturing (r g b a : ℚ) (tg : String)
    (s : ShaderState) (mats : List OBJECT_MATERIAL) (texs : List TEXTURE_ID) :
    SetShaderColor r g b a ⟨some s, mats, texs⟩ =
      ⟨some { s with bUseTexture := false, objectColor := (r, g, b, a) },
        mats, texs⟩ ∧
    (SetShaderColor r g b a
        (SetShaderTexture tg ⟨some s, mats, texs⟩)).m_pShaderManager.map
        ShaderState.bUseTexture = some false :=
  ⟨rfl, rfl⟩

/-- C7: for every decoded image whose channel count is neither 3 nor 4,
`CreateGLTexture` returns `false` and the texture registry (contents, hence
count) is unchanged: no entry is appended. -/
theorem createGLTexture_bad_channels_no_append (img : RawImage) (tag : String)
    (texs : List TEXTURE_ID) (gl : GLState)
    (h3 : img.colorChannels ≠ 3) (h4 : img.colorChannels ≠ 4) :
    (CreateGLTexture (some img) tag texs gl).1 = false ∧
    (CreateGLTexture (some img) tag texs gl).2.1 = texs := by
  simp [CreateGLTexture, h3, h4]

/-- Witness for C7: a 2-channel image is rejected and the empty registry stays
empty. -/
theorem createGLTexture_bad_channels_no_append_witness :
    (CreateGLTexture (some ⟨64, 64, 2⟩) "gray" [] freshGL).1 = false ∧
    (CreateGLTexture (some ⟨64, 64, 2⟩) "gray" [] freshGL).2.1 = [] :=
  createGLTexture_bad_channels_no_append ⟨64, 64, 2⟩ "gray" [] freshGL
    (by decide) (by decide)

/-- C10: on a `SceneManager` whose shader-manager pointer is null,
`SetTransformations`, `SetShaderColor`, `SetShaderTexture` and
`SetTextureUVScale` write no uniform at all: each guards its writes behind a
null check, so every one of them returns the state unchanged. -/
theorem null_shader_state_pushes_are_noops (scaleXYZ positionXYZ : Vec3R)
    (x y z : ℝ) (r g b a u v : ℚ) (tg : String)
    (mats : List OBJECT_MATERIAL) (texs : List TEXTURE_ID) :
    SetTransformations scaleXYZ x y z positionXYZ ⟨none, mats, texs⟩ =
      ⟨none, mats, texs⟩ ∧
    SetShaderColor r g b a ⟨none, mats, texs⟩ = ⟨none, mats, texs⟩ ∧
    SetShaderTexture tg ⟨none, mats, texs⟩ = ⟨none, mats, texs⟩ ∧
    SetTextureUVScale u v ⟨none, mats, texs⟩ = ⟨none, mats, texs⟩ :=
  ⟨rfl, rfl, rfl, rfl⟩

/-- Helper: the texture-slot scan loop returns `-1` when no entry's tag
matches. -/
theorem findTextureSlotLoop_of_not_mem :
    ∀ (texs : List TEXTURE_ID) (tag : String) (i : Nat),
      (∀ t ∈ texs, t.tag ≠ tag) → FindTextureSlotLoop texs tag i = -1
  | [], _, _, _ => rfl
  | t :: rest, tag, i, h => by
      have ht : ¬ t.tag = tag := h t (List.mem_cons_self t rest)
      simp only [FindTextureSlotLoop, if_neg ht]
      exact findTextureSlotLoop_of_not_mem rest tag (i + 1)
        (fun t' ht' => h t' (List.mem_cons_of_mem _ ht'))

/-- Helper: when some entry's tag matches, the scan loop started at counter `i`
returns `i` plus the index of the first match. -/
theorem findTextureSlotLoop_of_mem :
    ∀ (texs : List TEXTURE_ID) (tag : String) (i : Nat),
      tag ∈ texs.map TEXTURE_ID.tag →
      FindTextureSlotLoop texs tag i =
        Int.ofNat (i + texs.findIdx (fun t => t.tag == tag))
  | [], tag, i, h => by simp at h
  | t :: rest, tag, i, h => by
      by_cases ht : t.tag = tag
      · have hbeq : (t.tag == tag) = true := by simp [ht]
        simp only [FindTextureSlotLoop, List.findIdx_cons, hbeq, cond_true,
          Nat.add_zero]
        rw [if_pos ht]
      · have hmem : tag ∈ rest.map TEXTURE_ID.tag := by
          rcases List.mem_map.mp h with ⟨t', ht', rfl⟩
          rcases List.mem_cons.mp ht' with rfl | hrest
          · exact absurd rfl ht
          · exact List.mem_map.mpr ⟨t', hrest, rfl⟩
        have hbeq : (t.tag == tag) = false := beq_eq_false_iff_ne.mpr ht
        simp only [FindTextureSlotLoop, if_neg ht, List.findIdx_cons, hbeq,
          cond_false]
        rw [findTextureSlotLoop_of_mem rest tag (i + 1) hmem]
        congr 1
        omega

/-- C6: for every registry built by successful registrations, `FindTextureSlot`
on a registered tag returns the registration-order index of the first entry
bearing that tag, a value in `[0, loadedCount)`; on a tag never registered it
returns the sentinel `-1`; and in the concrete scenario that registers "mug",
"counter", "cuttingBoard" in that order, `FindTextureSlot "counter"` is 1. -/
theorem findTextureSlot_first_match_or_sentinel :
    (∀ (texs : List TEXTURE_ID) (tag : String),
      tag ∈ texs.map TEXTURE_ID.tag →
      FindTextureSlot texs tag =
          Int.ofNat (texs.findIdx (fun t => t.tag == tag)) ∧
        0 ≤ FindTextureSlot texs tag ∧
        FindTextureSlot texs tag < Int.ofNat texs.length) ∧
    (∀ (texs : List TEXTURE_ID) (tag : String),
      tag ∉ texs.map TEXTURE_ID.tag → FindTextureSlot texs tag = -1) ∧
    FindTextureSlot demoTextureIDs "counter" = 1 := by
  refine ⟨fun texs tag h => ?_, fun texs tag h => ?_, by decide⟩
  · have heq : FindTextureSlot texs tag =
        Int.ofNat (texs.findIdx (fun t => t.tag == tag)) := by
      have h0 := findTextureSlotLoop_of_mem texs tag 0 h
      simpa [FindTextureSlot] using h0
    have hlt : texs.findIdx (fun t => t.tag == tag) < texs.length := by
      apply List.findIdx_lt_length_of_exists
      rcases List.mem_map.mp h with ⟨t', ht', rfl⟩
      exact ⟨t', ht', beq_self_eq_true _⟩
    refine ⟨heq, ?_, ?_⟩
    · rw [heq]; exact Int.ofNat_nonneg _
    · rw [heq]; exact Int.ofNat_lt.mpr hlt
  · exact findTextureSlotLoop_of_not_mem texs tag 0
      (fun t ht hcontra => h (List.mem_map.mpr ⟨t, ht, hcontra⟩))

/-- Witness for C6: in the three-texture scenario, the lookup of "counter" hits
at index 1 with the bounds as stated, and the never-registered tag "teapot"
yields the sentinel. -/
theorem findTextureSlot_first_match_or_sentinel_witness :
    (FindTextureSlot demoTextureIDs "counter" =
        Int.ofNat (demoTextureIDs.findIdx (fun t => t.tag == "counter")) ∧
      0 ≤ FindTextureSlot demoTextureIDs "counter" ∧
      FindTextureSlot demoTextureIDs "counter" < demoTextureIDs.length) ∧
    FindTextureSlot demoTextureIDs "teapot" = -1 :=
  ⟨findTextureSlot_first_match_or_sentinel.1 demoTextureIDs "counter" (by decide),
   findTextureSlot_first_match_or_sentinel.2.1 demoTextureIDs "teapot" (by decide)⟩

/-- Helper: the material scan loop skips leading entries with no matching tag. -/
theorem findMaterialLoop_skip_unmatched :
    ∀ (pre rest : List OBJECT_MATERIAL) (tag : String) (g : OBJECT_MATERIAL),
      (∀ e ∈ pre, e.tag ≠ tag) →
      FindMaterialLoop (pre ++ rest) tag g = FindMaterialLoop rest tag g
  | [], _, _, _, _ => rfl
  | p :: ps, rest, tag, g, h => by
      have hp : ¬ p.tag = tag := h p (List.mem_cons_self p ps)
      simp only [List.cons_append, FindMaterialLoop, if_neg hp]
      exact findMaterialLoop_skip_unmatched ps rest tag g
        (fun e he => h e (List.mem_cons_of_mem _ he))

/-- C8: for every registry holding two or more entries with the same tag, the
lookup returns the five lighting fields of the first-defined matching entry:
the scan runs forward from index 0 and stops at the first hit, so the later
duplicate `e2` is never consulted, whatever its fields. -/
theorem findMaterial_first_match_wins (pre mid suff : List OBJECT_MATERIAL)
    (e1 e2 : OBJECT_MATERIAL) (tag : String) (g : OBJECT_MATERIAL)
    (hpre : ∀ e ∈ pre, e.tag ≠ tag) (h1 : e1.tag = tag) (_h2 : e2.tag = tag) :
    FindMaterial (pre ++ e1 :: (mid ++ e2 :: suff)) tag g =
      (true,
       { g with
          ambientColor := e1.ambientColor
          ambientStrength := e1.ambientStrength
          diffuseColor := e1.diffuseColor
          specularColor := e1.specularColor
          shininess := e1.shininess }) := by
  have hne : (pre ++ e1 :: (mid ++ e2 :: suff)).length ≠ 0 := by
    simp
  simp only [FindMaterial, if_neg hne]
  rw [findMaterialLoop_skip_unmatched pre _ tag g hpre]
  simp only [FindMaterialLoop, if_pos h1]

/-- Witness for C8: with two "counter" materials defined in order, the lookup
returns the fields of the first one, not the duplicate. -/
theorem findMaterial_first_match_wins_witness :
    FindMaterial ([] ++ counterMaterial :: ([] ++ counterMaterialDup :: []))
        "counter" zeroLocal =
      (true,
       { zeroLocal with
          ambientColor := counterMaterial.ambientColor
          ambientStrength := counterMaterial.ambientStrength
          diffuseColor := counterMaterial.diffuseColor
          specularColor := counterMaterial.specularColor
          shininess := counterMaterial.shininess }) :=
  findMaterial_first_match_wins [] [] [] counterMaterial counterMaterialDup
    "counter" zeroLocal (by simp) (by decide) (by decide)

/-- C9: `DrawGrapes` issues exactly 6 sphere draw calls, iterated in index
order over the two parallel arrays of length 6, and the transform push in
effect at the i-th draw (the nearest preceding one; only the flat-color push
sits between them) carries position `grapePositions[i]` and the uniform scale
`grapeSizes[i]` in all three axes. -/
theorem drawGrapes_six_draws_with_indexed_transforms :
    (sphereDrawIndices DrawGrapes).length = 6 ∧
    ∀ i : Fin 6,
      ((sphereDrawIndices DrawGrapes).get? i.val).map
          (lastTransformBefore DrawGrapes) =
        some (some (RenderCall.setTransform
          (grapeSizes i, grapeSizes i, grapeSizes i) 0 0 0 (grapePositions i))) := by
  refine ⟨rfl, fun i => ?_⟩
  fin_cases i <;> rfl

/-- Helper: normalizing the X unit axis changes nothing. -/
theorem glmNormalize_unitX : glmNormalize (1, 0, 0) = ((1 : ℝ), (0 : ℝ), (0 : ℝ)) := by
  have h : Real.sqrt ((1 : ℝ) * 1 + 0 * 0 + 0 * 0) = 1 := by
    rw [show ((1 : ℝ) * 1 + 0 * 0 + 0 * 0) = 1 by norm_num, Real.sqrt_one]
  simp [glmNormalize, h]

/-- Helper: normalizing the Y unit axis changes nothing. -/
theorem glmNormalize_unitY : glmNormalize (0, 1, 0) = ((0 : ℝ), (1 : ℝ), (0 : ℝ)) := by
  have h : Real.sqrt ((0 : ℝ) * 0 + 1 * 1 + 0 * 0) = 1 := by
    rw [show ((0 : ℝ) * 0 + 1 * 1 + 0 * 0) = 1 by norm_num, Real.sqrt_one]
  simp [glmNormalize, h]

/-- Helper: normalizing the Z unit axis changes nothing. -/
theorem glmNormalize_unitZ : glmNormalize (0, 0, 1) = ((0 : ℝ), (0 : ℝ), (1 : ℝ)) := by
  have h : Real.sqrt ((0 : ℝ) * 0 + 0 * 0 + 1 * 1) = 1 := by
    rw [show ((0 : ℝ) * 0 + 0 * 0 + 1 * 1) = 1 by norm_num, Real.sqrt_one]
  simp [glmNormalize, h]

/-- Helper: GLM's axis-angle matrix on the X unit axis is the pure X-axis
rotation. -/
theorem glmRotate_unitX (θ : ℝ) : glmRotate θ (1, 0, 0) = rotationXMatrix θ := by
  unfold glmRotate rotationXMatrix
  rw [glmNormalize_unitX]
  ext i j
  fin_cases i <;> fin_cases j <;> simp

/-- Helper: GLM's axis-angle matrix on the Y unit axis is the pure Y-axis
rotation. -/
theorem glmRotate_unitY (θ : ℝ) : glmRotate θ (0, 1, 0) = rotationYMatrix θ := by
  unfold glmRotate rotationYMatrix
  rw [glmNormalize_unitY]
  ext i j
  fin_cases i <;> fin_cases j <;> simp

/-- Helper: GLM's axis-angle matrix on the Z unit axis is the pure Z-axis
rotation. -/
theorem glmRotate_unitZ (θ : ℝ) : glmRotate θ (0, 0, 1) = rotationZMatrix θ := by
  unfold glmRotate rotationZMatrix
  rw [glmNormalize_unitZ]
  ext i j
  fin_cases i <;> fin_cases j <;> simp

/-- Helper: zero degrees is zero radians. -/
theorem glmRadians_zero : glmRadians 0 = 0 := by
  simp [glmRadians]

/-- Helper: the identity scale gives the identity matrix. -/
theorem glmScale_one : glmScale (1, 1, 1) = 1 := by
  ext i j
  fin_cases i <;> fin_cases j <;>
    simp [glmScale, Matrix.one_apply, Matrix.vecHead, Matrix.vecTail]

/-- Helper: the zero translation gives the identity matrix. -/
theorem glmTranslate_zero : glmTranslate (0, 0, 0) = 1 := by
  ext i j
  fin_cases i <;> fin_cases j <;>
    simp [glmTranslate, Matrix.one_apply, Matrix.vecHead, Matrix.vecTail]

/-- Helper: the X rotation by zero radians is the identity matrix. -/
theorem rotationXMatrix_zero : rotationXMatrix 0 = 1 := by
  ext i j
  fin_cases i <;> fin_cases j <;>
    simp [rotationXMatrix, Matrix.one_apply, Matrix.vecHead, Matrix.vecTail]

/-- Helper: the Y rotation by zero radians is the identity matrix. -/
theorem rotationYMatrix_zero : rotationYMatrix 0 = 1 := by
  ext i j
  fin_cases i <;> fin_cases j <;>
    simp [rotationYMatrix, Matrix.one_apply, Matrix.vecHead, Matrix.vecTail]

/-- Helper: the Z rotation by zero radians is the identity matrix. -/
theorem rotationZMatrix_zero : rotationZMatrix 0 = 1 := by
  ext i j
  fin_cases i <;> fin_cases j <;>
    simp [rotationZMatrix, Matrix.one_apply, Matrix.vecHead, Matrix.vecTail]

/-- C5: for every scale, degree angles and position, the model matrix pushed by
`SetTransformations` is the product
`Translation * RotationX * RotationY * RotationZ * Scale`, each rotation being
the pure axis rotation by the degree value converted to radians; and with
identity scale, zero rotations and zero translation the pushed matrix is the
identity. -/
theorem setTransformations_pushes_TRxRyRzS (scaleXYZ positionXYZ : Vec3R)
    (x y z : ℝ) (s : ShaderState) (mats : List OBJECT_MATERIAL)
    (texs : List TEXTURE_ID) :
    SetTransformations scaleXYZ x y z positionXYZ ⟨some s, mats, texs⟩ =
      ⟨some { s with model := (glmTranslate positionXYZ *
          rotationXMatrix (glmRadians x) * rotationYMatrix (glmRadians y) *
          rotationZMatrix (glmRadians z) * glmScale scaleXYZ) },
        mats, texs⟩ ∧
    SetTransformations (1, 1, 1) 0 0 0 (0, 0, 0) ⟨some s, mats, texs⟩ =
      ⟨some { s with model := 1 }, mats, texs⟩ := by
  constructor
  · simp only [SetTransformations, glmRotate_unitX, glmRotate_unitY,
      glmRotate_unitZ]
    rfl
  · simp only [SetTransformations, glmRotate_unitX, glmRotate_unitY,
      glmRotate_unitZ, glmRadians_zero, rotationXMatrix_zero,
      rotationYMatrix_zero, rotationZMatrix_zero, glmScale_one,
      glmTranslate_zero, one_mul, mul_one]
    rfl
